import Mathlib

/-!
Verification development for the fraud-detection scoring engine.

The Python sources are shallowly embedded:
* `Claim` models the claim-record dict handed to the engines; each of the
  11 categorical fields is `Option String` (`none` = key absent from the dict).
* Python floats are modelled as exact rationals (`ℚ`); the only float
  operations on the scoring paths are `+`, `*`, `min`/`max`, `round(x, 3)`
  and `int(x)`, all of which are embedded explicitly below.
* Fallible Python code (expressions that can raise) returns `Except String _`.
* `processing_time_ms` and `timestamp` are wall-clock outputs and are left
  out of the embedded result record; no claim mentions them.
-/

/-- Claim record: the dict handed to `calculate_fraud_score`.  A field is
`none` when the key is absent from the dict (the pydantic boundary always
supplies all 11 keys, but both engines accept plain dicts). -/
structure Claim where
  Month : Option String := none
  DayOfWeek : Option String := none
  Make : Option String := none
  AccidentArea : Option String := none
  Sex : Option String := none
  MaritalStatus : Option String := none
  PolicyType : Option String := none
  VehiclePrice : Option String := none
  AgeOfVehicle : Option String := none
  AgeOfPolicyHolder : Option String := none
  Days_Policy_Claim : Option String := none
deriving DecidableEq

/-- Score result returned by both engines (deterministic fields only;
`processing_time_ms` and `timestamp` are wall-clock valued and omitted).
The scorecard breakdown is an insertion-ordered association list, mirroring
the insertion-ordered Python dict. -/
structure ScoreResult where
  fraud_probability : ℚ
  risk_score : ℤ
  risk_level : String
  confidence : String
  key_risk_factors : List String
  scorecard_breakdown : List (String × ℤ)
  business_recommendation : String
  model_version : String
deriving DecidableEq

/-- Substring test on char lists: Python `sub in s`. -/
def listContains (sub : List Char) : List Char → Bool
  | [] => sub.isEmpty
  | c :: rest => sub.isPrefixOf (c :: rest) || listContains sub rest

/-- Python `sub in s` for strings. -/
def strContains (s sub : String) : Bool := listContains sub.data s.data

/-- Python `int(x)` on a float: truncation toward zero. -/
def ratTrunc (q : ℚ) : ℤ := if 0 ≤ q then ⌊q⌋ else -⌊-q⌋

/-- Python `round(x)`: round half to even (banker rounding). -/
def pyRoundInt (q : ℚ) : ℤ :=
  let f : ℤ := ⌊q⌋
  if q - f < 1/2 then f
  else if 1/2 < q - f then f + 1
  else if Even f then f else f + 1

/-- Python `round(x, 3)`. -/
def pyRound3 (q : ℚ) : ℚ := (pyRoundInt (q * 1000) : ℚ) / 1000

/-!
## Fallback engine — `main.py`, class `FallbackFraudEngine`

`__init__` fixes `base_score = 650`, `base_fraud_rate = 0.035` and the six
rule weights; `calculate_fraud_score` is a pure function of the claim dict
(plus wall clock).  The six rule predicates below are the six `if`
conditions of `calculate_fraud_score`, in source order.  Python semantics
of the guards: `claim_data.get(k) == v` is `False` when the key is absent
(`None == v`), `claim_data.get(k) in [...]` is `False` when absent, and
`'All Perils' in claim_data.get('PolicyType', '')` substring-tests the
empty string when absent.
-/

def FallbackFraudEngine.base_score : ℤ := 650

def FallbackFraudEngine.base_fraud_rate : ℚ := 0.035

def fbUrgent (c : Claim) : Bool := c.Days_Policy_Claim == some "1 to 7"

def fbComplex (c : Claim) : Bool := strContains (c.PolicyType.getD "") "All Perils"

def fbPremium (c : Claim) : Bool :=
  c.Make == some "BMW" || c.Make == some "Mercedes" || c.Make == some "Audi"

def fbYoung (c : Claim) : Bool :=
  c.AgeOfPolicyHolder == some "18 to 20" || c.AgeOfPolicyHolder == some "21 to 25"

def fbLuxury (c : Claim) : Bool :=
  c.VehiclePrice == some "60000 to 69000" || c.VehiclePrice == some "more than 69000"

def fbRural (c : Claim) : Bool := c.AccidentArea == some "Rural"

/-- Accumulated `fraud_prob` just before the clamp: `base_fraud_rate` plus
the weight of every triggered rule (`risk_weights` of `__init__`). -/
def fallbackRawProb (c : Claim) : ℚ :=
  FallbackFraudEngine.base_fraud_rate
    + (if fbUrgent c then 0.18 else 0)
    + (if fbComplex c then 0.09 else 0)
    + (if fbPremium c then 0.12 else 0)
    + (if fbYoung c then 0.07 else 0)
    + (if fbLuxury c then 0.08 else 0)
    + (if fbRural c then 0.05 else 0)

/-- The `scorecard` dict built rule by rule, in insertion order. -/
def fallbackBreakdown (c : Claim) : List (String × ℤ) :=
  [("Base Score", FallbackFraudEngine.base_score),
   ("Claim Timing", if fbUrgent c then -25 else 10),
   ("Policy Type", if fbComplex c then -15 else 5),
   ("Vehicle Make", if fbPremium c then -20 else 5),
   ("Driver Age", if fbYoung c then -15 else 5),
   ("Vehicle Value", if fbLuxury c then -10 else 0),
   ("Accident Area", if fbRural c then -8 else 2)]

/-- The `risk_factors` list built rule by rule, in insertion order. -/
def fallbackRiskFactors (c : Claim) : List String :=
  (if fbUrgent c then ["🚨 Claim reportado muy rápidamente (1-7 días)"] else [])
    ++ (if fbComplex c then ["🔍 Póliza All Perils (mayor complejidad)"] else [])
    ++ (if fbPremium c then ["💰 Vehículo de marca premium"] else [])
    ++ (if fbYoung c then ["👤 Conductor joven (alto riesgo)"] else [])
    ++ (if fbLuxury c then ["💎 Vehículo de alto valor"] else [])
    ++ (if fbRural c then ["📍 Accidente en área rural"] else [])

/-- Python `sum(v for k, v in scorecard.items() if k != "Base Score")`. -/
def fallbackAdjustment (c : Claim) : ℤ :=
  (((fallbackBreakdown c).filter (fun kv => kv.1 ≠ "Base Score")).map Prod.snd).sum

/-- Three-tier classification of `final_score` in the fallback engine
(risk level, confidence, recommendation). -/
def classifyFallback (score : ℤ) : String × String × String :=
  if score ≤ 580 then
    ("HIGH", "High", "INVESTIGATE IMMEDIATELY - Multiple high-risk indicators")
  else if score ≤ 620 then
    ("MEDIUM", "Medium", "DETAILED REVIEW REQUIRED - Some concerning factors")
  else
    ("LOW", "High", "STANDARD PROCESSING - Normal risk profile")

/-- `FallbackFraudEngine.calculate_fraud_score`, deterministic fields. -/
def FallbackFraudEngine.calculate_fraud_score (c : Claim) : ScoreResult :=
  let fraud_prob := min 0.95 (max 0.005 (fallbackRawProb c))
  let final_score := FallbackFraudEngine.base_score + fallbackAdjustment c
  let cls := classifyFallback final_score
  { fraud_probability := pyRound3 fraud_prob
    risk_score := final_score
    risk_level := cls.1
    confidence := cls.2.1
    key_risk_factors := (fallbackRiskFactors c).take 4
    scorecard_breakdown := fallbackBreakdown c
    business_recommendation := cls.2.2
    model_version := "1.0.0-fallback" }

/-!
## Trained engine — `models.py`, class `FraudDetectionEngine`

The class state loaded by `load_models` (WoE tables, scorecard rows,
base points, feature-name list and the two pickled classifiers) is the
`FraudDetectionEngine` structure below; the two classifiers are opaque
training artifacts and are embedded as abstract prediction functions that
may fail (sklearn raises on NaN or non-numeric input).

Cells of the one-row DataFrame built by `prepare_features` are embedded by
`Cell`: a finite float, the float NaN, or a raw string column value.
-/

/-- Value held by one column of the one-row pandas DataFrame. -/
inductive Cell where
  | num (q : ℚ)
  | nan
  | str (s : String)
deriving DecidableEq

/-- Weight-of-Evidence lookup: `df[var].map(woe_dict).fillna(0)` applied to
the raw value of a column that is present. -/
def woeValue (table : List (String × ℚ)) (v : String) : ℚ :=
  (table.lookup v).getD 0

/-- Category-mapper column: `df.get(field, pd.Series()).map(table).fillna(dflt)`
assigned into the one-row frame.  When the field is present, an unmapped
value maps to NaN and `fillna` turns it into the table default.  When the
field is absent, `df.get` returns the empty-Series default, `map`/`fillna`
keep it empty, and assigning an empty Series into a one-row frame aligns on
the index and stores NaN — the `fillna` default is never applied. -/
def numericCell (table : List (String × ℚ)) (dflt : ℚ) : Option String → Cell
  | none => Cell.nan
  | some v => Cell.num ((table.lookup v).getD dflt)

/-- Business-flag column.  When the field is present the comparison runs on
the Series and yields 0/1.  When the field is absent, `df.get(field, '')`
returns the scalar `''`, the comparison collapses to a plain Python
`bool`/`str`, and the following `.astype(int)` / `.isin` / `.str` attribute
access raises `AttributeError`. -/
def flagCell (field : Option String) (test : String → Bool) : Except String Cell :=
  match field with
  | none => Except.error "AttributeError"
  | some v => Except.ok (Cell.num (if test v then 1 else 0))

def age_mapping : List (String × ℚ) :=
  [("below 18", 17), ("16 to 17", 17), ("18 to 20", 19), ("21 to 25", 23),
   ("26 to 30", 28), ("31 to 35", 33), ("36 to 40", 38), ("41 to 50", 45),
   ("51 to 65", 58), ("over 65", 70)]

def price_mapping : List (String × ℚ) :=
  [("less than 20000", 15000), ("20000 to 29000", 24500),
   ("30000 to 39000", 34500), ("40000 to 59000", 49500),
   ("60000 to 69000", 64500), ("more than 69000", 80000)]

def vehicle_age_mapping : List (String × ℚ) :=
  [("new", 0), ("2 years", 2), ("3 years", 3), ("4 years", 4),
   ("5 years", 5), ("6 years", 6), ("7 years", 7), ("more than 7", 10)]

def days_mapping : List (String × ℚ) :=
  [("none", 0), ("1 to 7", 4), ("8 to 15", 11),
   ("15 to 30", 22), ("more than 30", 45)]

/-- The 11 raw column names of a claim record. -/
def rawFieldNames : List String :=
  ["Month", "DayOfWeek", "Make", "AccidentArea", "Sex", "MaritalStatus",
   "PolicyType", "VehiclePrice", "AgeOfVehicle", "AgeOfPolicyHolder",
   "Days_Policy_Claim"]

/-- Raw field of the claim dict by column name (`none` for any other name). -/
def claimLookup (c : Claim) : String → Option String
  | "Month" => c.Month
  | "DayOfWeek" => c.DayOfWeek
  | "Make" => c.Make
  | "AccidentArea" => c.AccidentArea
  | "Sex" => c.Sex
  | "MaritalStatus" => c.MaritalStatus
  | "PolicyType" => c.PolicyType
  | "VehiclePrice" => c.VehiclePrice
  | "AgeOfVehicle" => c.AgeOfVehicle
  | "AgeOfPolicyHolder" => c.AgeOfPolicyHolder
  | "Days_Policy_Claim" => c.Days_Policy_Claim
  | _ => none

/-- Columns of `pd.DataFrame([claim_data])`: the raw fields present in the
dict, as string cells. -/
def presentRawCols (c : Claim) : List (String × Cell) :=
  rawFieldNames.filterMap (fun name =>
    (claimLookup c name).map (fun v => (name, Cell.str v)))

/-- WoE columns added by the `for var, woe_dict in self.woe_mappings.items()`
loop: one column `var + "_WoE"` per mapping whose key `var` is a column of
the frame (for training-produced artifacts the keys are raw categorical
field names, so presence in the frame is presence in the claim dict). -/
def woeCols (mappings : List (String × List (String × ℚ))) (c : Claim) :
    List (String × Cell) :=
  mappings.filterMap (fun vt =>
    (claimLookup c vt.1).map (fun v => (vt.1 ++ "_WoE", Cell.num (woeValue vt.2 v))))

/-- Loaded state of `FraudDetectionEngine`: the artifacts of `load_models`.
`scorecard` is the row list (Variable, Points) of `scorecard_dict['scorecard']`;
`base_points` is `scorecard_dict['base_points']`; the two predictors stand
for `predict_proba(X)[:, 1][0]` of the pickled models. -/
structure FraudDetectionEngine where
  woe_mappings : List (String × List (String × ℚ))
  scorecard : List (String × ℚ)
  base_points : ℚ
  feature_names : List String
  predict_logistic : List (String × Cell) → Except String ℚ
  predict_xgb : List (String × Cell) → Except String ℚ

/-- `FraudDetectionEngine.prepare_features`: numeric mappings, business
flags (the only fallible step: an absent flag field raises), WoE columns,
then selection of `feature_names` with default 0 for absent features. -/
def FraudDetectionEngine.prepare_features (E : FraudDetectionEngine) (c : Claim) :
    Except String (List (String × Cell)) := do
  let numCols : List (String × Cell) :=
    [("AgeOfPolicyHolder_Numeric", numericCell age_mapping 35 c.AgeOfPolicyHolder),
     ("VehiclePrice_Numeric", numericCell price_mapping 35000 c.VehiclePrice),
     ("AgeOfVehicle_Numeric", numericCell vehicle_age_mapping 5 c.AgeOfVehicle),
     ("Days_Policy_Claim_Numeric", numericCell days_mapping 30 c.Days_Policy_Claim)]
  let urgency ← flagCell c.Days_Policy_Claim (fun v => v == "1 to 7")
  let luxury ← flagCell c.VehiclePrice
    (fun v => v == "60000 to 69000" || v == "more than 69000")
  let young ← flagCell c.AgeOfPolicyHolder
    (fun v => v == "18 to 20" || v == "21 to 25")
  let complexPolicy ← flagCell c.PolicyType (fun v => strContains v "All Perils")
  let premium ← flagCell c.Make
    (fun v => v == "BMW" || v == "Mercedes" || v == "Audi")
  let flagCols : List (String × Cell) :=
    [("Claim_Urgency", urgency), ("Luxury_Vehicle", luxury),
     ("Young_Driver", young), ("Complex_Policy", complexPolicy),
     ("Premium_Make", premium)]
  let df := presentRawCols c ++ numCols ++ flagCols ++ woeCols E.woe_mappings c
  pure (E.feature_names.map (fun f => (f, (df.lookup f).getD (Cell.num 0))))

/-- Left-to-right replacement of every non-overlapping occurrence of `pat`
by the empty string (Python `s.replace(pat, '')`), with explicit fuel so
that the kernel can evaluate it; `fuel = length + 1` always suffices since
every step consumes at least one character. -/
def replaceAllAux (pat : List Char) : Nat → List Char → List Char
  | 0, s => s
  | _ + 1, [] => []
  | fuel + 1, ch :: rest =>
    if pat ≠ [] ∧ pat.isPrefixOf (ch :: rest) then
      replaceAllAux pat fuel (rest.drop (pat.length - 1))
    else
      ch :: replaceAllAux pat fuel rest

def replaceAll (pat s : List Char) : List Char := replaceAllAux pat (s.length + 1) s

/-- Display name in the scorecard breakdown:
`variable.replace('_WoE', '').replace('_Numeric', '')`. -/
def displayName (varName : String) : String :=
  ⟨replaceAll "_Numeric".data (replaceAll "_WoE".data varName.data)⟩

/-- Assignment `d[k] = v` on an insertion-ordered dict: update in place if
the key exists, append otherwise. -/
def dictInsert (l : List (String × ℤ)) (k : String) (v : ℤ) : List (String × ℤ) :=
  if l.any (fun kv => kv.1 == k) then
    l.map (fun kv => if kv.1 == k then (k, v) else kv)
  else
    l ++ [(k, v)]

/-- One pass of the `for idx, row in scorecard.iterrows()` loop of
`calculate_scorecard_points`, threading the running float `total_points`
(which may be NaN) and the breakdown dict.  A string-valued cell makes
`total_points += contribution` raise `TypeError`; a NaN cell turns the
total into NaN and `abs(contribution) > 0.5` is false, so the breakdown is
untouched. -/
def scorecardStep (X : List (String × Cell)) (acc : Cell × List (String × ℤ))
    (row : String × ℚ) : Except String (Cell × List (String × ℤ)) :=
  match X.lookup row.1 with
  | none => Except.ok acc
  | some (Cell.str _) => Except.error "TypeError"
  | some Cell.nan => Except.ok (Cell.nan, acc.2)
  | some (Cell.num v) =>
    let contribution := v * row.2
    let bd :=
      if 1/2 < |contribution| then
        dictInsert acc.2 (displayName row.1) (ratTrunc contribution)
      else acc.2
    match acc.1 with
    | Cell.num t => Except.ok (Cell.num (t + contribution), bd)
    | _ => Except.ok (acc.1, bd)

/-- `FraudDetectionEngine.calculate_scorecard_points`: fold the scorecard
rows over `(total_points, points_breakdown)` starting from
`(base_points, {"Base Score": int(base_points)})`; the final
`int(total_points)` raises `ValueError` if the total is NaN. -/
def FraudDetectionEngine.calculate_scorecard_points (E : FraudDetectionEngine)
    (X : List (String × Cell)) : Except String (ℤ × List (String × ℤ)) := do
  let acc ← E.scorecard.foldlM (scorecardStep X)
    (Cell.num E.base_points, [("Base Score", ratTrunc E.base_points)])
  match acc.1 with
  | Cell.num t => pure (ratTrunc t, acc.2)
  | _ => Except.error "ValueError"

/-- `FraudDetectionEngine.identify_risk_factors`: the narrative explainer,
evaluated on the raw claim dict with plain-dict `get` semantics. -/
def FraudDetectionEngine.identify_risk_factors (c : Claim) (fraud_prob : ℚ) :
    List String :=
  let factors :=
    (if c.Days_Policy_Claim == some "1 to 7" then
      ["🚨 Claim reportado muy rápidamente (1-7 días)"] else [])
    ++ (if strContains (c.PolicyType.getD "") "All Perils" then
      ["🔍 Póliza de cobertura completa (All Perils)"] else [])
    ++ (if c.Make == some "BMW" || c.Make == some "Mercedes"
          || c.Make == some "Audi" then
      ["💰 Vehículo de marca premium"] else [])
    ++ (if c.AgeOfPolicyHolder == some "18 to 20"
          || c.AgeOfPolicyHolder == some "21 to 25" then
      ["👤 Conductor joven (mayor riesgo estadístico)"] else [])
    ++ (if c.VehiclePrice == some "60000 to 69000"
          || c.VehiclePrice == some "more than 69000" then
      ["💎 Vehículo de alto valor"] else [])
    ++ (if c.AccidentArea == some "Rural" then
      ["📍 Accidente en área rural"] else [])
  let factors :=
    if factors = [] ∧ 0.3 < fraud_prob then
      ["⚠️ Combinación de factores genera riesgo elevado"]
    else factors
  factors.take 4

/-- Three-tier classification of `risk_score` in the trained engine. -/
def classifyTrained (score : ℤ) : String × String × String :=
  if score ≤ 580 then
    ("HIGH", "High",
     "INVESTIGATE IMMEDIATELY - Multiple high-risk indicators detected")
  else if score ≤ 620 then
    ("MEDIUM", "Medium", "DETAILED REVIEW REQUIRED - Some concerning factors present")
  else
    ("LOW", "High", "STANDARD PROCESSING - Normal risk profile")

/-- The controlled degraded result of the `except` branch of
`FraudDetectionEngine.calculate_fraud_score`. -/
def degradedResult : ScoreResult :=
  { fraud_probability := 0.05
    risk_score := 650
    risk_level := "ERROR"
    confidence := "Low"
    key_risk_factors := ["❌ Error en procesamiento"]
    scorecard_breakdown := [("Error", 0)]
    business_recommendation := "MANUAL REVIEW REQUIRED - System error"
    model_version := "1.0.0-error" }

/-- Everything inside the `try` block of
`FraudDetectionEngine.calculate_fraud_score`, in source order: feature
preparation, the two `predict_proba` calls, the 70/30 blend, the scorecard. -/
def FraudDetectionEngine.tryScore (E : FraudDetectionEngine) (c : Claim) :
    Except String (ℚ × ℤ × List (String × ℤ)) := do
  let X ← E.prepare_features c
  let probLogistic ← E.predict_logistic X
  let probXgb ← E.predict_xgb X
  let fraud_prob := 0.7 * probLogistic + 0.3 * probXgb
  let rs ← E.calculate_scorecard_points X
  pure (fraud_prob, rs)

/-- `FraudDetectionEngine.calculate_fraud_score`: the `try` block on
success, the controlled degraded result when any step raises. -/
def FraudDetectionEngine.calculate_fraud_score (E : FraudDetectionEngine)
    (c : Claim) : ScoreResult :=
  match E.tryScore c with
  | Except.error _ => degradedResult
  | Except.ok (fraud_prob, risk_score, scorecard_breakdown) =>
    let cls := classifyTrained risk_score
    { fraud_probability := pyRound3 fraud_prob
      risk_score := risk_score
      risk_level := cls.1
      confidence := cls.2.1
      key_risk_factors := FraudDetectionEngine.identify_risk_factors c fraud_prob
      scorecard_breakdown := scorecard_breakdown
      business_recommendation := cls.2.2
      model_version := "1.0.0-production" }

/-!
## Concrete instances

`exampleClaim` is the documented example request of `main.py`
(`ClaimData.Config.schema_extra`); the other claims are probe inputs.
`sampleEngine` is a small but shape-faithful artifact set: WoE tables keyed
by raw categorical field names, scorecard rows over trained feature names,
and two total predictors.
-/

def exampleClaim : Claim :=
  { Month := some "Jun", DayOfWeek := some "Friday", Make := some "BMW",
    AccidentArea := some "Urban", Sex := some "Male",
    MaritalStatus := some "Single", PolicyType := some "Sport - All Perils",
    VehiclePrice := some "more than 69000", AgeOfVehicle := some "2 years",
    AgeOfPolicyHolder := some "21 to 25", Days_Policy_Claim := some "1 to 7" }

/-- Claim dict with every key absent. -/
def emptyClaim : Claim := {}

/-- Full claim except that the `Days_Policy_Claim` key is absent. -/
def noDaysClaim : Claim :=
  { exampleClaim with Days_Policy_Claim := none }

/-- Full claim except that the `AgeOfVehicle` key is absent. -/
def noVehicleAgeClaim : Claim :=
  { exampleClaim with AgeOfVehicle := none }

/-- Full claim whose categorical values are outside every known
enumeration. -/
def unknownClaim : Claim :=
  { Month := some "Undecimber", DayOfWeek := some "Someday",
    Make := some "Lada", AccidentArea := some "Suburban",
    Sex := some "Unknown", MaritalStatus := some "Widowed",
    PolicyType := some "Utility - Liability",
    VehiclePrice := some "70000 to 79000", AgeOfVehicle := some "9 years",
    AgeOfPolicyHolder := some "66 to 70",
    Days_Policy_Claim := some "16 to 20" }

/-- Variant of `exampleClaim` differing exactly on the five fields the
fallback rules never read. -/
def altClaim : Claim :=
  { exampleClaim with
    Month := some "Jan", DayOfWeek := some "Monday",
    Sex := some "Female", MaritalStatus := some "Married",
    AgeOfVehicle := some "6 years" }

def sampleEngine : FraudDetectionEngine :=
  { woe_mappings :=
      [("Make", [("BMW", 0.4), ("Honda", -0.2)]),
       ("Days_Policy_Claim", [("1 to 7", 0.9), ("more than 30", -0.3)])]
    scorecard := [("AgeOfVehicle_Numeric", -1)]
    base_points := 585
    feature_names :=
      ["Days_Policy_Claim_WoE", "Make_WoE", "AgeOfVehicle_Numeric",
       "Claim_Urgency", "Luxury_Vehicle"]
    predict_logistic := fun _ => Except.ok 0.32
    predict_xgb := fun _ => Except.ok 0.5 }

/-- All 11 keys are present in the claim dict. -/
def allPresent (c : Claim) : Prop :=
  c.Month.isSome ∧ c.DayOfWeek.isSome ∧ c.Make.isSome ∧ c.AccidentArea.isSome ∧
  c.Sex.isSome ∧ c.MaritalStatus.isSome ∧ c.PolicyType.isSome ∧
  c.VehiclePrice.isSome ∧ c.AgeOfVehicle.isSome ∧ c.AgeOfPolicyHolder.isSome ∧
  c.Days_Policy_Claim.isSome

/-!
## Helper lemmas
-/

theorem exceptBind_ok {α β : Type} (a : α) (f : α → Except String β) :
    (Except.ok a >>= f) = f a := rfl

theorem exceptBind_error {α β : Type} (e : String) (f : α → Except String β) :
    ((Except.error e : Except String α) >>= f) = Except.error e := rfl

theorem lookup_mem {α : Type} {l : List (String × α)} {k : String} {v : α}
    (h : List.lookup k l = some v) : (k, v) ∈ l := by
  induction l with
  | nil => exact Option.noConfusion h
  | cons kv t ih =>
    rw [List.lookup] at h
    rcases hbeq : (k == kv.1) with _ | _
    · rw [hbeq] at h
      exact List.mem_cons_of_mem _ (ih h)
    · rw [hbeq] at h
      obtain rfl : kv.2 = v := by injection h
      obtain rfl : k = kv.1 := by
        have := eq_of_beq hbeq
        exact this
      exact List.mem_cons_self _ _

theorem lookup_eq_none_of_keys {α : Type} {l : List (String × α)} {k : String}
    (h : ∀ kv ∈ l, kv.1 ≠ k) : l.lookup k = none := by
  induction l with
  | nil => rfl
  | cons kv t ih =>
    rw [List.lookup]
    have hk : (k == kv.1) = false := by
      rcases hbeq : (k == kv.1) with _ | _
      · rfl
      · exact absurd (eq_of_beq hbeq).symm (h kv (List.mem_cons_self _ _))
    rw [hk]
    exact ih fun kv2 hm => h kv2 (List.mem_cons_of_mem _ hm)

theorem classifyFallback_levels (s : ℤ) :
    (classifyFallback s).1 = "HIGH" ∨ (classifyFallback s).1 = "MEDIUM" ∨
      (classifyFallback s).1 = "LOW" := by
  unfold classifyFallback
  split_ifs <;>
    first
      | exact Or.inl rfl
      | exact Or.inr (Or.inl rfl)
      | exact Or.inr (Or.inr rfl)

theorem classifyTrained_levels (s : ℤ) :
    (classifyTrained s).1 = "HIGH" ∨ (classifyTrained s).1 = "MEDIUM" ∨
      (classifyTrained s).1 = "LOW" := by
  unfold classifyTrained
  split_ifs <;>
    first
      | exact Or.inl rfl
      | exact Or.inr (Or.inl rfl)
      | exact Or.inr (Or.inr rfl)

theorem classifyFallback_iff (s : ℤ) :
    ((classifyFallback s).1 = "HIGH" ↔ s ≤ 580) ∧
    ((classifyFallback s).1 = "MEDIUM" ↔ 581 ≤ s ∧ s ≤ 620) ∧
    ((classifyFallback s).1 = "LOW" ↔ 620 < s) := by
  unfold classifyFallback
  split_ifs with h1 h2
  · exact ⟨iff_of_true rfl h1, iff_of_false (by decide) (by omega),
      iff_of_false (by decide) (by omega)⟩
  · exact ⟨iff_of_false (by decide) (by omega), iff_of_true rfl (by omega),
      iff_of_false (by decide) (by omega)⟩
  · exact ⟨iff_of_false (by decide) (by omega), iff_of_false (by decide) (by omega),
      iff_of_true rfl (by omega)⟩

theorem classifyTrained_iff (s : ℤ) :
    ((classifyTrained s).1 = "HIGH" ↔ s ≤ 580) ∧
    ((classifyTrained s).1 = "MEDIUM" ↔ 581 ≤ s ∧ s ≤ 620) ∧
    ((classifyTrained s).1 = "LOW" ↔ 620 < s) := by
  unfold classifyTrained
  split_ifs with h1 h2
  · exact ⟨iff_of_true rfl h1, iff_of_false (by decide) (by omega),
      iff_of_false (by decide) (by omega)⟩
  · exact ⟨iff_of_false (by decide) (by omega), iff_of_true rfl (by omega),
      iff_of_false (by decide) (by omega)⟩
  · exact ⟨iff_of_false (by decide) (by omega), iff_of_false (by decide) (by omega),
      iff_of_true rfl (by omega)⟩

theorem calculate_fraud_score_of_error {E : FraudDetectionEngine} {c : Claim}
    {e : String} (h : E.tryScore c = Except.error e) :
    E.calculate_fraud_score c = degradedResult := by
  unfold FraudDetectionEngine.calculate_fraud_score
  rw [h]

theorem calculate_fraud_score_of_ok {E : FraudDetectionEngine} {c : Claim}
    {p : ℚ} {s : ℤ} {bd : List (String × ℤ)}
    (h : E.tryScore c = Except.ok (p, s, bd)) :
    E.calculate_fraud_score c =
      { fraud_probability := pyRound3 p
        risk_score := s
        risk_level := (classifyTrained s).1
        confidence := (classifyTrained s).2.1
        key_risk_factors := FraudDetectionEngine.identify_risk_factors c p
        scorecard_breakdown := bd
        business_recommendation := (classifyTrained s).2.2
        model_version := "1.0.0-production" } := by
  unfold FraudDetectionEngine.calculate_fraud_score
  rw [h]

theorem tryScore_ok_inv {E : FraudDetectionEngine} {c : Claim} {p : ℚ}
    {s : ℤ} {bd : List (String × ℤ)} (h : E.tryScore c = Except.ok (p, s, bd)) :
    ∃ X, E.prepare_features c = Except.ok X ∧
      E.calculate_scorecard_points X = Except.ok (s, bd) := by
  unfold FraudDetectionEngine.tryScore at h
  cases hX : E.prepare_features c with
  | error e => rw [hX, exceptBind_error] at h; cases h
  | ok X =>
    rw [hX, exceptBind_ok] at h
    cases hL : E.predict_logistic X with
    | error e => rw [hL, exceptBind_error] at h; cases h
    | ok pL =>
      rw [hL, exceptBind_ok] at h
      cases hG : E.predict_xgb X with
      | error e => rw [hG, exceptBind_error] at h; cases h
      | ok pG =>
        rw [hG, exceptBind_ok] at h
        cases hS : E.calculate_scorecard_points X with
        | error e => rw [hS, exceptBind_error] at h; cases h
        | ok rs =>
          rw [hS, exceptBind_ok] at h
          obtain ⟨rfl, h2⟩ : 0.7 * pL + 0.3 * pG = p ∧ rs = (s, bd) := by
            injection h with h
            injection h with ha hb
            exact ⟨ha, hb⟩
          exact ⟨X, rfl, by rw [hS, h2]⟩

theorem prepare_features_of_allPresent (E : FraudDetectionEngine) (c : Claim)
    (hall : allPresent c) :
    ∃ X, E.prepare_features c = Except.ok X ∧
      (∀ kv ∈ X, kv.1 ∈ E.feature_names) ∧
      (∀ kv ∈ X, kv.1 ∈ rawFieldNames ∨ ∃ q, kv.2 = Cell.num q) := by
  obtain ⟨hMo, hDw, hMk, hAa, hSx, hMs, hPt, hVp, hAv, hAp, hDc⟩ := hall
  obtain ⟨mk, hmk⟩ := Option.isSome_iff_exists.mp hMk
  obtain ⟨pt, hpt⟩ := Option.isSome_iff_exists.mp hPt
  obtain ⟨vp, hvp⟩ := Option.isSome_iff_exists.mp hVp
  obtain ⟨av, hav⟩ := Option.isSome_iff_exists.mp hAv
  obtain ⟨ap, hap⟩ := Option.isSome_iff_exists.mp hAp
  obtain ⟨dc, hdc⟩ := Option.isSome_iff_exists.mp hDc
  have hprep : E.prepare_features c = Except.ok
      (E.feature_names.map (fun f => (f, ((presentRawCols c
          ++ [("AgeOfPolicyHolder_Numeric", numericCell age_mapping 35 (some ap)),
              ("VehiclePrice_Numeric", numericCell price_mapping 35000 (some vp)),
              ("AgeOfVehicle_Numeric", numericCell vehicle_age_mapping 5 (some av)),
              ("Days_Policy_Claim_Numeric", numericCell days_mapping 30 (some dc))]
          ++ [("Claim_Urgency", Cell.num (if dc == "1 to 7" then 1 else 0)),
              ("Luxury_Vehicle", Cell.num (if vp == "60000 to 69000"
                  || vp == "more than 69000" then 1 else 0)),
              ("Young_Driver", Cell.num (if ap == "18 to 20"
                  || ap == "21 to 25" then 1 else 0)),
              ("Complex_Policy", Cell.num (if strContains pt "All Perils" then 1 else 0)),
              ("Premium_Make", Cell.num (if mk == "BMW" || mk == "Mercedes"
                  || mk == "Audi" then 1 else 0))]
          ++ woeCols E.woe_mappings c).lookup f).getD (Cell.num 0)))) := by
    unfold FraudDetectionEngine.prepare_features
    rw [hdc, hvp, hap, hpt, hmk, hav]
    rfl
  refine ⟨_, hprep, fun kv hkv => ?_, fun kv hkv => ?_⟩
  · obtain ⟨f, hf, rfl⟩ := List.mem_map.mp hkv
    exact hf
  · obtain ⟨f, hf, rfl⟩ := List.mem_map.mp hkv
    cases hlk : (presentRawCols c
          ++ [("AgeOfPolicyHolder_Numeric", numericCell age_mapping 35 (some ap)),
              ("VehiclePrice_Numeric", numericCell price_mapping 35000 (some vp)),
              ("AgeOfVehicle_Numeric", numericCell vehicle_age_mapping 5 (some av)),
              ("Days_Policy_Claim_Numeric", numericCell days_mapping 30 (some dc))]
          ++ [("Claim_Urgency", Cell.num (if dc == "1 to 7" then 1 else 0)),
              ("Luxury_Vehicle", Cell.num (if vp == "60000 to 69000"
                  || vp == "more than 69000" then 1 else 0)),
              ("Young_Driver", Cell.num (if ap == "18 to 20"
                  || ap == "21 to 25" then 1 else 0)),
              ("Complex_Policy", Cell.num (if strContains pt "All Perils" then 1 else 0)),
              ("Premium_Make", Cell.num (if mk == "BMW" || mk == "Mercedes"
                  || mk == "Audi" then 1 else 0))]
          ++ woeCols E.woe_mappings c).lookup f with
    | none => exact Or.inr ⟨0, by simp [hlk]⟩
    | some cell =>
      have hmem := lookup_mem hlk
      simp only [hlk, Option.getD_some]
      rcases List.mem_append.mp hmem with h1 | hD
      · rcases List.mem_append.mp h1 with h2 | hC
        · rcases List.mem_append.mp h2 with hA | hB
          · obtain ⟨name, hname, heq⟩ := List.mem_filterMap.mp hA
            obtain ⟨v, hv, heq2⟩ := Option.map_eq_some'.mp heq
            have hnf : name = f := congrArg Prod.fst heq2
            exact Or.inl (hnf ▸ hname)
          · simp only [List.mem_cons, List.not_mem_nil, or_false] at hB
            rcases hB with h | h | h | h <;>
              (have hc : cell = _ := congrArg Prod.snd h
               exact Or.inr ⟨_, hc.trans rfl⟩)
        · simp only [List.mem_cons, List.not_mem_nil, or_false] at hC
          rcases hC with h | h | h | h | h <;>
            (have hc : cell = _ := congrArg Prod.snd h
             exact Or.inr ⟨_, hc⟩)
      · obtain ⟨vt, hvt, heq⟩ := List.mem_filterMap.mp hD
        obtain ⟨v, hv, heq2⟩ := Option.map_eq_some'.mp heq
        have hc : Cell.num (woeValue vt.2 v) = cell := congrArg Prod.snd heq2
        exact Or.inr ⟨_, hc.symm⟩

theorem foldlM_scorecard_num (X : List (String × Cell))
    (hX : ∀ kv ∈ X, ∃ q, kv.2 = Cell.num q) :
    ∀ (rows : List (String × ℚ)) (t : ℚ) (bd : List (String × ℤ)),
      ∃ t2 bd2, List.foldlM (scorecardStep X) (Cell.num t, bd) rows =
        Except.ok (Cell.num t2, bd2) := by
  intro rows
  induction rows with
  | nil => exact fun t bd => ⟨t, bd, rfl⟩
  | cons r rs ih =>
    intro t bd
    cases hlk : X.lookup r.1 with
    | none =>
      have hstep : scorecardStep X (Cell.num t, bd) r = Except.ok (Cell.num t, bd) := by
        unfold scorecardStep; rw [hlk]
      obtain ⟨t2, bd2, hrest⟩ := ih t bd
      exact ⟨t2, bd2, by rw [List.foldlM_cons, hstep, exceptBind_ok, hrest]⟩
    | some cell =>
      obtain ⟨q, hq⟩ := hX _ (lookup_mem hlk)
      have hq2 : cell = Cell.num q := hq
      subst hq2
      have hstep : scorecardStep X (Cell.num t, bd) r =
          Except.ok (Cell.num (t + q * r.2),
            if 1/2 < |q * r.2| then
              dictInsert bd (displayName r.1) (ratTrunc (q * r.2))
            else bd) := by
        unfold scorecardStep; rw [hlk]
      obtain ⟨t2, bd2, hrest⟩ := ih (t + q * r.2)
        (if 1/2 < |q * r.2| then
          dictInsert bd (displayName r.1) (ratTrunc (q * r.2)) else bd)
      exact ⟨t2, bd2, by rw [List.foldlM_cons, hstep, exceptBind_ok, hrest]⟩

theorem calculate_scorecard_points_ok {E : FraudDetectionEngine}
    {X : List (String × Cell)} (hX : ∀ kv ∈ X, ∃ q, kv.2 = Cell.num q) :
    ∃ s bd, E.calculate_scorecard_points X = Except.ok (s, bd) := by
  obtain ⟨t2, bd2, hf⟩ := foldlM_scorecard_num X hX E.scorecard E.base_points
    [("Base Score", ratTrunc E.base_points)]
  refine ⟨ratTrunc t2, bd2, ?_⟩
  unfold FraudDetectionEngine.calculate_scorecard_points
  rw [hf, exceptBind_ok]
  rfl

theorem trained_scores_ok (E : FraudDetectionEngine) (c : Claim)
    (hall : allPresent c)
    (hfeat : ∀ f ∈ E.feature_names, f ∉ rawFieldNames)
    (hlog : ∀ X, ∃ q, E.predict_logistic X = Except.ok q)
    (hxgb : ∀ X, ∃ q, E.predict_xgb X = Except.ok q) :
    ∃ p s bd, E.tryScore c = Except.ok (p, s, bd) := by
  obtain ⟨X, hprep, hkeys, hnum⟩ := prepare_features_of_allPresent E c hall
  have hXnum : ∀ kv ∈ X, ∃ q, kv.2 = Cell.num q := fun kv hm =>
    (hnum kv hm).resolve_left (fun hraw => hfeat kv.1 (hkeys kv hm) hraw)
  obtain ⟨pL, hL⟩ := hlog X
  obtain ⟨pG, hG⟩ := hxgb X
  obtain ⟨s, bd, hsc⟩ := calculate_scorecard_points_ok hXnum
  refine ⟨0.7 * pL + 0.3 * pG, s, bd, ?_⟩
  unfold FraudDetectionEngine.tryScore
  rw [hprep, exceptBind_ok, hL, exceptBind_ok, hG, exceptBind_ok, hsc, exceptBind_ok]
  rfl

theorem trained_not_error (E : FraudDetectionEngine) (c : Claim)
    (hall : allPresent c)
    (hfeat : ∀ f ∈ E.feature_names, f ∉ rawFieldNames)
    (hlog : ∀ X, ∃ q, E.predict_logistic X = Except.ok q)
    (hxgb : ∀ X, ∃ q, E.predict_xgb X = Except.ok q) :
    (E.calculate_fraud_score c).risk_level ≠ "ERROR" := by
  obtain ⟨p, s, bd, htry⟩ := trained_scores_ok E c hall hfeat hlog hxgb
  rw [calculate_fraud_score_of_ok htry]
  show (classifyTrained s).1 ≠ "ERROR"
  rcases classifyTrained_levels s with h | h | h <;> rw [h] <;> decide

theorem dictInsert_cons (hd : String × ℤ) (tl : List (String × ℤ)) (k : String)
    (v : ℤ) (hne : k ≠ hd.1) : ∃ tl2, dictInsert (hd :: tl) k v = hd :: tl2 := by
  unfold dictInsert
  have hbeq : (hd.1 == k) = false := by
    rcases h : (hd.1 == k) with _ | _
    · rfl
    · exact absurd (eq_of_beq h).symm hne
  split_ifs with h
  · refine ⟨tl.map (fun kv => if kv.1 == k then (k, v) else kv), ?_⟩
    rw [List.map_cons, hbeq]
    rfl
  · exact ⟨tl ++ [(k, v)], List.cons_append _ _ _⟩

theorem foldlM_scorecard_hd (X : List (String × Cell)) (hd : String × ℤ) :
    ∀ (rows : List (String × ℚ)), (∀ row ∈ rows, displayName row.1 ≠ hd.1) →
    ∀ (t : Cell) (tl : List (String × ℤ)) (t2 : Cell) (bd2 : List (String × ℤ)),
      List.foldlM (scorecardStep X) (t, hd :: tl) rows = Except.ok (t2, bd2) →
      ∃ tl2, bd2 = hd :: tl2 := by
  intro rows
  induction rows with
  | nil =>
    intro _ t tl t2 bd2 h
    rw [List.foldlM_nil] at h
    exact ⟨tl, (congrArg Prod.snd (Except.ok.inj h)).symm⟩
  | cons r rs ih =>
    intro hrows t tl t2 bd2 h
    rw [List.foldlM_cons] at h
    cases hstep : scorecardStep X (t, hd :: tl) r with
    | error e => rw [hstep, exceptBind_error] at h; cases h
    | ok a =>
      rw [hstep, exceptBind_ok] at h
      have ha : ∃ tl2, a.2 = hd :: tl2 := by
        unfold scorecardStep at hstep
        cases hlk : X.lookup r.1 with
        | none =>
          rw [hlk] at hstep
          exact ⟨tl, (congrArg Prod.snd (Except.ok.inj hstep)).symm⟩
        | some cell =>
          rw [hlk] at hstep
          cases cell with
          | str s => cases hstep
          | nan =>
            exact ⟨tl, (congrArg Prod.snd (Except.ok.inj hstep)).symm⟩
          | num v =>
            have hbd : a.2 = (if 1/2 < |v * r.2| then
                dictInsert (hd :: tl) (displayName r.1) (ratTrunc (v * r.2))
              else hd :: tl) := by
              cases t with
              | num t0 =>
                have hstep2 : Except.ok (Cell.num (t0 + v * r.2),
                    if 1/2 < |v * r.2| then
                      dictInsert (hd :: tl) (displayName r.1) (ratTrunc (v * r.2))
                    else hd :: tl) = Except.ok a := hstep
                exact (congrArg Prod.snd (Except.ok.inj hstep2)).symm
              | nan =>
                have hstep2 : Except.ok (Cell.nan,
                    if 1/2 < |v * r.2| then
                      dictInsert (hd :: tl) (displayName r.1) (ratTrunc (v * r.2))
                    else hd :: tl) = Except.ok a := hstep
                exact (congrArg Prod.snd (Except.ok.inj hstep2)).symm
              | str s0 =>
                have hstep2 : Except.ok (Cell.str s0,
                    if 1/2 < |v * r.2| then
                      dictInsert (hd :: tl) (displayName r.1) (ratTrunc (v * r.2))
                    else hd :: tl) = Except.ok a := hstep
                exact (congrArg Prod.snd (Except.ok.inj hstep2)).symm
            by_cases hcond : (1/2 : ℚ) < |v * r.2|
            · rw [hbd, if_pos hcond]
              exact dictInsert_cons hd tl _ _ (hrows r (List.mem_cons_self _ _))
            · rw [hbd, if_neg hcond]
              exact ⟨tl, rfl⟩
      obtain ⟨tl2, ha2⟩ := ha
      have ha3 : a = (a.1, hd :: tl2) := by rw [← ha2]
      rw [ha3] at h
      exact ih (fun row hm => hrows row (List.mem_cons_of_mem _ hm)) a.1 tl2 t2 bd2 h

theorem calculate_scorecard_points_hd {E : FraudDetectionEngine}
    {X : List (String × Cell)} {s : ℤ} {bd : List (String × ℤ)}
    (hrows : ∀ row ∈ E.scorecard, displayName row.1 ≠ "Base Score")
    (h : E.calculate_scorecard_points X = Except.ok (s, bd)) :
    bd.head? = some ("Base Score", ratTrunc E.base_points) := by
  unfold FraudDetectionEngine.calculate_scorecard_points at h
  cases hf : List.foldlM (scorecardStep X)
      (Cell.num E.base_points, [("Base Score", ratTrunc E.base_points)])
      E.scorecard with
  | error e => rw [hf, exceptBind_error] at h; cases h
  | ok acc =>
    rw [hf, exceptBind_ok] at h
    have hbd : bd = acc.2 := by
      cases hacc : acc.1 with
      | num t =>
        have h2 : (Except.ok (ratTrunc t, acc.2) : Except String (ℤ × List (String × ℤ)))
            = Except.ok (s, bd) := by
          rw [← h]
          show _ = (match acc.1 with
            | Cell.num t => pure (ratTrunc t, acc.2)
            | _ => Except.error "ValueError")
          rw [hacc]
          rfl
        have hab : acc.2 = bd := congrArg Prod.snd (Except.ok.inj h2)
        exact hab.symm
      | nan =>
        have h2 : (Except.error "ValueError" : Except String (ℤ × List (String × ℤ)))
            = Except.ok (s, bd) := by
          rw [← h]
          show _ = (match acc.1 with
            | Cell.num t => pure (ratTrunc t, acc.2)
            | _ => Except.error "ValueError")
          rw [hacc]
        cases h2
      | str s2 =>
        have h2 : (Except.error "ValueError" : Except String (ℤ × List (String × ℤ)))
            = Except.ok (s, bd) := by
          rw [← h]
          show _ = (match acc.1 with
            | Cell.num t => pure (ratTrunc t, acc.2)
            | _ => Except.error "ValueError")
          rw [hacc]
        cases h2
    obtain ⟨tl2, htl⟩ := foldlM_scorecard_hd X ("Base Score", ratTrunc E.base_points)
      E.scorecard hrows (Cell.num E.base_points) [] acc.1 acc.2 (by rw [← hf])
    rw [hbd, htl]
    rfl

/-!
## Claim theorems
-/

/-- C1: for every claim record scored by either engine, the returned
risk_level is one of HIGH, MEDIUM, LOW, ERROR; on the non-degraded path
HIGH iff risk_score ≤ 580, MEDIUM iff 581 ≤ risk_score ≤ 620, LOW iff
risk_score > 620; ERROR occurs only on the degraded path (the fallback
engine has no degraded path and never returns ERROR). -/
theorem C1_risk_level_policy (E : FraudDetectionEngine) (c : Claim) :
    ((FallbackFraudEngine.calculate_fraud_score c).risk_level = "HIGH" ∨
     (FallbackFraudEngine.calculate_fraud_score c).risk_level = "MEDIUM" ∨
     (FallbackFraudEngine.calculate_fraud_score c).risk_level = "LOW") ∧
    ((FallbackFraudEngine.calculate_fraud_score c).risk_level = "HIGH" ↔
      (FallbackFraudEngine.calculate_fraud_score c).risk_score ≤ 580) ∧
    ((FallbackFraudEngine.calculate_fraud_score c).risk_level = "MEDIUM" ↔
      581 ≤ (FallbackFraudEngine.calculate_fraud_score c).risk_score ∧
        (FallbackFraudEngine.calculate_fraud_score c).risk_score ≤ 620) ∧
    ((FallbackFraudEngine.calculate_fraud_score c).risk_level = "LOW" ↔
      620 < (FallbackFraudEngine.calculate_fraud_score c).risk_score) ∧
    ((E.calculate_fraud_score c).risk_level = "HIGH" ∨
     (E.calculate_fraud_score c).risk_level = "MEDIUM" ∨
     (E.calculate_fraud_score c).risk_level = "LOW" ∨
     (E.calculate_fraud_score c).risk_level = "ERROR") ∧
    ((E.calculate_fraud_score c).risk_level ≠ "ERROR" →
      ((E.calculate_fraud_score c).risk_level = "HIGH" ↔
        (E.calculate_fraud_score c).risk_score ≤ 580) ∧
      ((E.calculate_fraud_score c).risk_level = "MEDIUM" ↔
        581 ≤ (E.calculate_fraud_score c).risk_score ∧
          (E.calculate_fraud_score c).risk_score ≤ 620) ∧
      ((E.calculate_fraud_score c).risk_level = "LOW" ↔
        620 < (E.calculate_fraud_score c).risk_score)) ∧
    ((E.calculate_fraud_score c).risk_level = "ERROR" →
      E.calculate_fraud_score c = degradedResult ∧
        ∃ e, E.tryScore c = Except.error e) := by
  refine ⟨?_, ?_, ?_, ?_, ?_, ?_, ?_⟩
  · exact classifyFallback_levels (FallbackFraudEngine.base_score + fallbackAdjustment c)
  · exact (classifyFallback_iff (FallbackFraudEngine.base_score + fallbackAdjustment c)).1
  · exact (classifyFallback_iff (FallbackFraudEngine.base_score + fallbackAdjustment c)).2.1
  · exact (classifyFallback_iff (FallbackFraudEngine.base_score + fallbackAdjustment c)).2.2
  all_goals cases htry : E.tryScore c with
    | error e =>
      rw [calculate_fraud_score_of_error htry]
      first
        | exact Or.inr (Or.inr (Or.inr rfl))
        | exact fun hne => absurd rfl hne
        | exact fun _ => ⟨rfl, e, rfl⟩
    | ok val =>
      rcases val with ⟨p, s, bd⟩
      rw [calculate_fraud_score_of_ok htry]
      first
        | exact (classifyTrained_levels s).imp id (Or.imp id Or.inl)
        | exact fun _ => ⟨(classifyTrained_iff s).1, (classifyTrained_iff s).2.1,
            (classifyTrained_iff s).2.2⟩
        | (intro he
           have he2 : (classifyTrained s).1 = "ERROR" := he
           rcases classifyTrained_levels s with h | h | h <;> rw [h] at he2 <;>
             exact absurd he2 (by decide))

/-- C1 witness: the fallback HIGH iff score ≤ 580 equivalence at the
documented example claim. -/
theorem C1_witness :
    (FallbackFraudEngine.calculate_fraud_score exampleClaim).risk_level = "HIGH" ↔
      (FallbackFraudEngine.calculate_fraud_score exampleClaim).risk_score ≤ 580 :=
  (C1_risk_level_policy sampleEngine exampleClaim).2.1

/-- Shared evaluation of the fallback probability at the documented example
claim: all rules except the rural rule trigger, so the raw probability is
0.035 + 0.18 + 0.09 + 0.12 + 0.07 + 0.08 = 0.575. -/
theorem exampleClaim_prob :
    (FallbackFraudEngine.calculate_fraud_score exampleClaim).fraud_probability
      = 0.575 := by
  have hU : fbUrgent exampleClaim = true := rfl
  have hC : fbComplex exampleClaim = true := rfl
  have hP : fbPremium exampleClaim = true := rfl
  have hY : fbYoung exampleClaim = true := rfl
  have hL : fbLuxury exampleClaim = true := rfl
  have hR : fbRural exampleClaim = false := rfl
  have hraw : fallbackRawProb exampleClaim = 0.575 := by
    unfold fallbackRawProb
    rw [hU, hC, hP, hY, hL, hR]
    norm_num [FallbackFraudEngine.base_fraud_rate]
  show pyRound3 (min 0.95 (max 0.005 (fallbackRawProb exampleClaim))) = 0.575
  rw [hraw]
  norm_num [pyRound3, pyRoundInt]

/-- C2 counterexample: on the Scenario 1 claim the fallback engine does not
return fraud_probability 0.545 — the sum 0.035+0.18+0.09+0.12+0.07+0.08 it
quotes is 0.575, not 0.545. -/
theorem C2_counterexample :
    (FallbackFraudEngine.calculate_fraud_score exampleClaim).fraud_probability
      ≠ 0.545 := by
  rw [exampleClaim_prob]
  norm_num

/-- C2 (amended): on the Scenario 1 claim (Days_Policy_Claim "1 to 7",
PolicyType "Sport - All Perils", Make "BMW", AgeOfPolicyHolder "21 to 25",
VehiclePrice "more than 69000", AccidentArea "Urban") the fallback engine
returns fraud_probability 0.575, risk_score 567 and risk_level HIGH. -/
theorem C2_fallback_scenario1 :
    (FallbackFraudEngine.calculate_fraud_score exampleClaim).fraud_probability
        = 0.575 ∧
    (FallbackFraudEngine.calculate_fraud_score exampleClaim).risk_score = 567 ∧
    (FallbackFraudEngine.calculate_fraud_score exampleClaim).risk_level = "HIGH" :=
  ⟨exampleClaim_prob, rfl, rfl⟩

/-- C3: with every field present, a claim whose categorical values are
outside the known enumerations still scores without raising (feature
derivation succeeds, unknown WoE lookups give 0.0, unmapped category-mapper
lookups give the table default) and, provided the two loaded models accept
the feature vector, the result is a valid non-ERROR score.  The model
hypotheses stand for the external artifact contract that `predict_proba`
accepts any numeric vector of the trained shape; `hfeat` states that the
trained feature list names derived features, never raw string columns, as
`train_model.py` guarantees. -/
theorem C3_unknown_values_tolerated (E : FraudDetectionEngine) (c : Claim)
    (hall : allPresent c)
    (hfeat : ∀ f ∈ E.feature_names, f ∉ rawFieldNames)
    (hlog : ∀ X, ∃ q, E.predict_logistic X = Except.ok q)
    (hxgb : ∀ X, ∃ q, E.predict_xgb X = Except.ok q) :
    (∃ X, E.prepare_features c = Except.ok X) ∧
    (∀ (table : List (String × ℚ)) (v : String),
      table.lookup v = none → woeValue table v = 0) ∧
    (∀ v, age_mapping.lookup v = none →
      numericCell age_mapping 35 (some v) = Cell.num 35) ∧
    (∀ v, price_mapping.lookup v = none →
      numericCell price_mapping 35000 (some v) = Cell.num 35000) ∧
    (∀ v, vehicle_age_mapping.lookup v = none →
      numericCell vehicle_age_mapping 5 (some v) = Cell.num 5) ∧
    (∀ v, days_mapping.lookup v = none →
      numericCell days_mapping 30 (some v) = Cell.num 30) ∧
    ((E.calculate_fraud_score c).risk_level = "HIGH" ∨
     (E.calculate_fraud_score c).risk_level = "MEDIUM" ∨
     (E.calculate_fraud_score c).risk_level = "LOW") := by
  refine ⟨?_, ?_, ?_, ?_, ?_, ?_, ?_⟩
  · obtain ⟨X, hX, -, -⟩ := prepare_features_of_allPresent E c hall
    exact ⟨X, hX⟩
  · intro table v h
    unfold woeValue
    rw [h]
    rfl
  · intro v h
    show Cell.num ((age_mapping.lookup v).getD 35) = Cell.num 35
    rw [h]
    rfl
  · intro v h
    show Cell.num ((price_mapping.lookup v).getD 35000) = Cell.num 35000
    rw [h]
    rfl
  · intro v h
    show Cell.num ((vehicle_age_mapping.lookup v).getD 5) = Cell.num 5
    rw [h]
    rfl
  · intro v h
    show Cell.num ((days_mapping.lookup v).getD 30) = Cell.num 30
    rw [h]
    rfl
  · obtain ⟨p, s, bd, htry⟩ := trained_scores_ok E c hall hfeat hlog hxgb
    rw [calculate_fraud_score_of_ok htry]
    exact classifyTrained_levels s

/-- C3 witness: `unknownClaim` carries only out-of-enumeration values (its
age bucket "66 to 70" is unmapped) and still yields a non-ERROR level on
the sample artifacts. -/
theorem C3_witness :
    allPresent unknownClaim ∧
    age_mapping.lookup "66 to 70" = none ∧
    ((sampleEngine.calculate_fraud_score unknownClaim).risk_level = "HIGH" ∨
     (sampleEngine.calculate_fraud_score unknownClaim).risk_level = "MEDIUM" ∨
     (sampleEngine.calculate_fraud_score unknownClaim).risk_level = "LOW") :=
  ⟨⟨rfl, rfl, rfl, rfl, rfl, rfl, rfl, rfl, rfl, rfl, rfl⟩, rfl,
    (C3_unknown_values_tolerated sampleEngine unknownClaim
      ⟨rfl, rfl, rfl, rfl, rfl, rfl, rfl, rfl, rfl, rfl, rfl⟩
      (by decide) (fun X => ⟨0.32, rfl⟩) (fun X => ⟨0.5, rfl⟩)).2.2.2.2.2.2⟩

/-- C4: a feature-derivation failure or a prediction-call failure never
propagates: `calculate_fraud_score` returns the controlled degraded result
with fraud_probability 0.05, risk_score 650, risk_level ERROR, confidence
Low, exactly one explanatory risk factor and model_version 1.0.0-error. -/
theorem C4_degraded_result (E : FraudDetectionEngine) (c : Claim)
    (h : (∃ e, E.prepare_features c = Except.error e) ∨
      (∃ X, E.prepare_features c = Except.ok X ∧
        ((∃ e, E.predict_logistic X = Except.error e) ∨
         (∃ e, E.predict_xgb X = Except.error e)))) :
    E.calculate_fraud_score c = degradedResult ∧
    (E.calculate_fraud_score c).fraud_probability = 0.05 ∧
    (E.calculate_fraud_score c).risk_score = 650 ∧
    (E.calculate_fraud_score c).risk_level = "ERROR" ∧
    (E.calculate_fraud_score c).confidence = "Low" ∧
    (E.calculate_fraud_score c).key_risk_factors.length = 1 ∧
    (E.calculate_fraud_score c).model_version = "1.0.0-error" := by
  have herr : ∃ e2, E.tryScore c = Except.error e2 := by
    rcases h with ⟨e, he⟩ | ⟨X, hX, hpred⟩
    · exact ⟨e, by
        unfold FraudDetectionEngine.tryScore
        rw [he, exceptBind_error]⟩
    · rcases hpred with ⟨e, he⟩ | ⟨e, he⟩
      · exact ⟨e, by
          unfold FraudDetectionEngine.tryScore
          rw [hX, exceptBind_ok, he, exceptBind_error]⟩
      · cases hL : E.predict_logistic X with
        | error eL =>
          exact ⟨eL, by
            unfold FraudDetectionEngine.tryScore
            rw [hX, exceptBind_ok, hL, exceptBind_error]⟩
        | ok pL =>
          exact ⟨e, by
            unfold FraudDetectionEngine.tryScore
            rw [hX, exceptBind_ok, hL, exceptBind_ok, he, exceptBind_error]⟩
  obtain ⟨e2, he2⟩ := herr
  rw [calculate_fraud_score_of_error he2]
  exact ⟨rfl, rfl, rfl, rfl, rfl, rfl, rfl⟩

/-- C4 witness: the all-keys-absent claim makes feature derivation fail on
the sample artifacts and the degraded result is returned. -/
theorem C4_witness :
    sampleEngine.prepare_features emptyClaim = Except.error "AttributeError" ∧
    sampleEngine.calculate_fraud_score emptyClaim = degradedResult :=
  ⟨rfl, (C4_degraded_result sampleEngine emptyClaim
    (Or.inl ⟨"AttributeError", rfl⟩)).1⟩

/-- C5 counterexample: on the trained engine's degraded path (here forced
by the all-keys-absent claim) the returned breakdown is the `{"Error": 0}`
dict — it contains no "Base Score" key at all, refuting the claim for
"every claim record and either engine". -/
theorem C5_counterexample :
    (sampleEngine.calculate_fraud_score emptyClaim).scorecard_breakdown.lookup
        "Base Score" = none ∧
    (sampleEngine.calculate_fraud_score emptyClaim).scorecard_breakdown.head?
        = some ("Error", 0) :=
  ⟨rfl, rfl⟩

/-- C5 (amended): every fallback result, and every non-degraded trained
result, has "Base Score" as the first breakdown entry holding the base
points value (650 for the fallback engine, `int(base_points)` for the
trained engine, whose scorecard rows never display as "Base Score"); the
trained engine's degraded result instead carries the `{"Error": 0}`
breakdown. -/
theorem C5_base_score_head :
    (∀ c, (FallbackFraudEngine.calculate_fraud_score c).scorecard_breakdown.head?
        = some ("Base Score", 650)) ∧
    (∀ (E : FraudDetectionEngine) (c : Claim),
      (∀ row ∈ E.scorecard, displayName row.1 ≠ "Base Score") →
      (E.calculate_fraud_score c).risk_level ≠ "ERROR" →
      (E.calculate_fraud_score c).scorecard_breakdown.head?
        = some ("Base Score", ratTrunc E.base_points)) := by
  constructor
  · exact fun c => rfl
  · intro E c hrows hne
    cases htry : E.tryScore c with
    | error e =>
      exact absurd (show (E.calculate_fraud_score c).risk_level = "ERROR" by
        rw [calculate_fraud_score_of_error htry]; rfl) hne
    | ok val =>
      rcases val with ⟨p, s, bd⟩
      obtain ⟨X, hX, hsc⟩ := tryScore_ok_inv htry
      rw [calculate_fraud_score_of_ok htry]
      exact calculate_scorecard_points_hd hrows hsc

/-- C5 witness: on the sample artifacts and the documented example claim
the non-degraded path is taken and the first breakdown entry is the base
points. -/
theorem C5_witness :
    (∀ row ∈ sampleEngine.scorecard, displayName row.1 ≠ "Base Score") ∧
    (sampleEngine.calculate_fraud_score exampleClaim).risk_level ≠ "ERROR" ∧
    (sampleEngine.calculate_fraud_score exampleClaim).scorecard_breakdown.head?
      = some ("Base Score", ratTrunc sampleEngine.base_points) := by
  have hrows : ∀ row ∈ sampleEngine.scorecard, displayName row.1 ≠ "Base Score" := by
    decide
  have hne := trained_not_error sampleEngine exampleClaim
    ⟨rfl, rfl, rfl, rfl, rfl, rfl, rfl, rfl, rfl, rfl, rfl⟩ (by decide)
    (fun X => ⟨0.32, rfl⟩) (fun X => ⟨0.5, rfl⟩)
  exact ⟨hrows, hne, C5_base_score_head.2 sampleEngine exampleClaim hrows hne⟩

/-- C6: for every claim, the fallback risk_score equals the "Base Score"
breakdown value (650) plus the sum of all the other breakdown values,
exactly. -/
theorem C6_breakdown_total (c : Claim) :
    (FallbackFraudEngine.calculate_fraud_score c).scorecard_breakdown.lookup
        "Base Score" = some 650 ∧
    (FallbackFraudEngine.calculate_fraud_score c).risk_score =
      650 + ((((FallbackFraudEngine.calculate_fraud_score c).scorecard_breakdown.filter
        (fun kv => kv.1 ≠ "Base Score")).map Prod.snd).sum) :=
  ⟨rfl, rfl⟩

/-- C7: the claimed behaviour (absent flag field ⇒ flag 0) is the evident
intent of the `df.get(field, default)` defaulting, but the code slips on
pandas semantics: with the key absent, `df.get('Days_Policy_Claim', '')`
returns the scalar `''`, the comparison collapses to a plain bool, and
`.astype(int)` raises AttributeError, so the whole scoring degrades to the
ERROR result instead of deriving a 0 flag.  The theorem evaluates the
embedding at a claim lacking only `Days_Policy_Claim`, for any artifacts. -/
theorem C7_missing_flag_field_raises (E : FraudDetectionEngine) :
    noDaysClaim.Days_Policy_Claim = none ∧
    E.prepare_features noDaysClaim = Except.error "AttributeError" ∧
    E.calculate_fraud_score noDaysClaim = degradedResult :=
  ⟨rfl, rfl, rfl⟩

/-- C8: an unmapped-but-present bucket value does fall back to the table
default (35 / 35000 / 5 / 30), but a missing input field does not: the
empty-Series default of `df.get` aligns to NaN in the one-row frame, so
the claimed per-table default is never applied on a missing field; with
the NaN feature in the scorecard the sample engine then degrades to the
ERROR result. -/
theorem C8_mapper_defaults :
    numericCell age_mapping 35 (some "unknown bucket") = Cell.num 35 ∧
    numericCell price_mapping 35000 (some "unknown bucket") = Cell.num 35000 ∧
    numericCell vehicle_age_mapping 5 (some "unknown bucket") = Cell.num 5 ∧
    numericCell days_mapping 30 (some "unknown bucket") = Cell.num 30 ∧
    numericCell age_mapping 35 none = Cell.nan ∧
    numericCell price_mapping 35000 none = Cell.nan ∧
    numericCell vehicle_age_mapping 5 none = Cell.nan ∧
    numericCell days_mapping 30 none = Cell.nan ∧
    (∃ X, sampleEngine.prepare_features noVehicleAgeClaim = Except.ok X ∧
      X.lookup "AgeOfVehicle_Numeric" = some Cell.nan) ∧
    sampleEngine.calculate_fraud_score noVehicleAgeClaim = degradedResult :=
  ⟨rfl, rfl, rfl, rfl, rfl, rfl, rfl, rfl, ⟨_, rfl, rfl⟩, rfl⟩

/-- C9: the fallback probability before the clamp always lies in
[0.035, 0.625], so the `min(0.95, max(0.005, p))` clamp never alters it,
and the returned probability is just `round(p, 3)`. -/
theorem C9_prob_range (c : Claim) :
    0.035 ≤ fallbackRawProb c ∧ fallbackRawProb c ≤ 0.625 ∧
    min 0.95 (max 0.005 (fallbackRawProb c)) = fallbackRawProb c ∧
    (FallbackFraudEngine.calculate_fraud_score c).fraud_probability =
      pyRound3 (fallbackRawProb c) := by
  have h1 : 0.035 ≤ fallbackRawProb c ∧ fallbackRawProb c ≤ 0.625 := by
    unfold fallbackRawProb FallbackFraudEngine.base_fraud_rate
    split_ifs <;> norm_num
  have h2 : min 0.95 (max 0.005 (fallbackRawProb c)) = fallbackRawProb c := by
    rw [max_eq_right (le_trans (by norm_num) h1.1),
      min_eq_right (le_trans h1.2 (by norm_num))]
  refine ⟨h1.1, h1.2, h2, ?_⟩
  show pyRound3 (min 0.95 (max 0.005 (fallbackRawProb c))) = _
  rw [h2]

/-- C10: the fallback engine reads only the six rule fields, so two claims
agreeing on Days_Policy_Claim, PolicyType, Make, AgeOfPolicyHolder,
VehiclePrice and AccidentArea receive identical probability, score, level,
confidence, risk factors, breakdown and recommendation, whatever their
Month, DayOfWeek, Sex, MaritalStatus and AgeOfVehicle. -/
theorem C10_fallback_noninterference (c1 c2 : Claim)
    (hdc : c1.Days_Policy_Claim = c2.Days_Policy_Claim)
    (hpt : c1.PolicyType = c2.PolicyType)
    (hmk : c1.Make = c2.Make)
    (hap : c1.AgeOfPolicyHolder = c2.AgeOfPolicyHolder)
    (hvp : c1.VehiclePrice = c2.VehiclePrice)
    (haa : c1.AccidentArea = c2.AccidentArea) :
    (FallbackFraudEngine.calculate_fraud_score c1).fraud_probability =
      (FallbackFraudEngine.calculate_fraud_score c2).fraud_probability ∧
    (FallbackFraudEngine.calculate_fraud_score c1).risk_score =
      (FallbackFraudEngine.calculate_fraud_score c2).risk_score ∧
    (FallbackFraudEngine.calculate_fraud_score c1).risk_level =
      (FallbackFraudEngine.calculate_fraud_score c2).risk_level ∧
    (FallbackFraudEngine.calculate_fraud_score c1).confidence =
      (FallbackFraudEngine.calculate_fraud_score c2).confidence ∧
    (FallbackFraudEngine.calculate_fraud_score c1).key_risk_factors =
      (FallbackFraudEngine.calculate_fraud_score c2).key_risk_factors ∧
    (FallbackFraudEngine.calculate_fraud_score c1).scorecard_breakdown =
      (FallbackFraudEngine.calculate_fraud_score c2).scorecard_breakdown ∧
    (FallbackFraudEngine.calculate_fraud_score c1).business_recommendation =
      (FallbackFraudEngine.calculate_fraud_score c2).business_recommendation := by
  have hU : fbUrgent c1 = fbUrgent c2 := by unfold fbUrgent; rw [hdc]
  have hC : fbComplex c1 = fbComplex c2 := by unfold fbComplex; rw [hpt]
  have hP : fbPremium c1 = fbPremium c2 := by unfold fbPremium; rw [hmk]
  have hY : fbYoung c1 = fbYoung c2 := by unfold fbYoung; rw [hap]
  have hL : fbLuxury c1 = fbLuxury c2 := by unfold fbLuxury; rw [hvp]
  have hR : fbRural c1 = fbRural c2 := by unfold fbRural; rw [haa]
  have hbd : fallbackBreakdown c1 = fallbackBreakdown c2 := by
    unfold fallbackBreakdown; rw [hU, hC, hP, hY, hL, hR]
  have hadj : fallbackAdjustment c1 = fallbackAdjustment c2 := by
    unfold fallbackAdjustment; rw [hbd]
  have hraw : fallbackRawProb c1 = fallbackRawProb c2 := by
    unfold fallbackRawProb; rw [hU, hC, hP, hY, hL, hR]
  have hrf : fallbackRiskFactors c1 = fallbackRiskFactors c2 := by
    unfold fallbackRiskFactors; rw [hU, hC, hP, hY, hL, hR]
  refine ⟨?_, ?_, ?_, ?_, ?_, ?_, ?_⟩ <;>
    simp only [FallbackFraudEngine.calculate_fraud_score, hraw, hadj, hrf, hbd]

/-- C10 witness: the example claim and its variant differing on all five
unread fields get the same probability and score. -/
theorem C10_witness :
    exampleClaim.Month ≠ altClaim.Month ∧
    (FallbackFraudEngine.calculate_fraud_score exampleClaim).fraud_probability =
      (FallbackFraudEngine.calculate_fraud_score altClaim).fraud_probability ∧
    (FallbackFraudEngine.calculate_fraud_score exampleClaim).risk_score =
      (FallbackFraudEngine.calculate_fraud_score altClaim).risk_score :=
  ⟨by decide,
    (C10_fallback_noninterference exampleClaim altClaim rfl rfl rfl rfl rfl rfl).1,
    (C10_fallback_noninterference exampleClaim altClaim rfl rfl rfl rfl rfl rfl).2.1⟩
